import Mathlib

/-!
Verification of the sockethub platform adapters (IRC and XMPP) against their
natural-language specification.

The definitions below are a shallow embedding of
`packages/sockethub-platform-irc/index.js` and
`packages/sockethub-platform-xmpp/lib/incoming-handlers.js`.

JavaScript runtime failures (a ReferenceError from reading an undeclared
variable, a TypeError from calling or dereferencing `undefined`) are modelled
explicitly with `JsError`: several code paths in the source hit such failures,
and several claims turn on exactly where they happen.  Side effects of a verb
handler (raw IRC commands issued, completion-callback invocations, credential
writes and connection-pool moves) are recorded in a `JsState` record that each
handler transforms; the handler additionally returns `Except JsError Unit`
telling whether it ran to completion or died with a runtime error.
-/

/-- A JavaScript runtime error: the two kinds the modelled code can raise. -/
inductive JsError where
  | typeError (msg : String)
  | referenceError (msg : String)
  deriving Repr, DecidableEq

/-- Is the list `n` an initial segment of the second list. -/
def leadEq : List Char → List Char → Bool
  | [], _ => true
  | _ :: _, [] => false
  | a :: as, b :: bs => a == b && leadEq as bs

/-- Does the character list `n` occur contiguously inside the second list. -/
def occursInList (n : List Char) : List Char → Bool
  | [] => leadEq n []
  | c :: cs => leadEq n (c :: cs) || occursInList n cs

/-- Model of the JavaScript test `hay.indexOf(needle) >= 0`. -/
def occursIn (needle hay : String) : Bool :=
  occursInList needle.toList hay.toList

/-- JavaScript truthiness of a value that is either a string or undefined:
`undefined` and the empty string are falsy. -/
def jsTruthy : Option String → Bool
  | none => false
  | some s => s != ""

/-- JavaScript string coercion of a possibly-undefined string (as done by the
`+` operator): `undefined` prints as the word undefined. -/
def jsToStr : Option String → String
  | none => "undefined"
  | some s => s

/-- The whitespace class of the regular expression used in `send`:
`content.replace` with a pattern stripping leading and trailing whitespace. -/
def jsWhitespace (c : Char) : Bool :=
  c == ' ' || c == '\t' || c == '\n' || c == '\r' || c.val == 11 || c.val == 12

/-- Model of `content.replace` with the trim regular expression in `send`. -/
def jsTrim (s : String) : String :=
  String.mk (((s.toList.dropWhile jsWhitespace).reverse.dropWhile jsWhitespace).reverse)

/-- IRC credentials as used by the adapter: the `object` part (`nick`,
`server`) together with the `actor` part (`id`, `displayName`, `name`) that
`update` reads and rewrites.  Fields not consulted by any modelled operation
(password, port, secure) are omitted. -/
structure Creds where
  nick : String := ""
  server : String := ""
  actorId : String := ""
  actorDisplayName : String := ""
  actorName : Option String := none
  deriving Repr, DecidableEq

/-- A pooled client as the verb handlers see it: its pool key and its
credentials.  The live backend handle is opaque to every claim and omitted. -/
structure Client where
  key : String := ""
  credentials : Creds := {}
  deriving Repr, DecidableEq

/-- The parts of an activity-streams job that the IRC verb handlers read. -/
structure Job where
  actorId : String := ""
  actorDisplayName : String := ""
  targetDisplayName : String := ""
  content : String := ""
  objectType : String := ""
  topic : Option String := none
  deriving Repr, DecidableEq

/-- A raw IRC command issued through `client.connection.irc.raw`. -/
inductive RawCmd where
  | joinCmd (channel : String)
  | partCmd (channel : String)
  | privmsg (target : String) (msg : String)
  | nickCmd (nick : String)
  | topicCmd (channel : String) (topic : Option String)
  | namesCmd (channel : String)
  deriving Repr, DecidableEq

/-- The observable state a verb handler can touch: the `_channels` membership
list plus the logs of raw commands, completion-callback invocations
(`none` = success, `some e` = error value), `session.setConfig` writes and
`session.connection.move` calls. -/
structure JsState where
  channels : List String := []
  commands : List RawCmd := []
  callback : List (Option String) := []
  setConfigCalls : List (String × String × Creds) := []
  moveCalls : List (String × Creds × String × Creds) := []
  deriving Repr, DecidableEq

/-- The adapter state at construction: `this._channels = []`, nothing logged. -/
def initState : JsState := {}

/-- The scope chain of the handler functions in index.js binds no variable
named err (referenced by the join handler) and no variable named job
(referenced by `_joined` and `_left`): looking those names up fails, which in
JavaScript raises a ReferenceError at the point of use. -/
def jsVarLookup (_name : String) : Option String := none

/-- Model of the room-name test in `_isJoined` — the hash character occurs at
index zero, i.e. the first character of the string is a hash. -/
def startsWithHash (s : String) : Bool :=
  match s.toList with
  | [] => false
  | c :: _ => c == '#'

/-- `IRC.prototype._isJoined`: a name starting with the hash sign must be in
`_channels`; any other name is always sendable. -/
def isJoined (channels : List String) (channel : String) : Bool :=
  if startsWithHash channel then channels.contains channel
  else true

/-- The error value `send` passes to `done` for an unjoined channel
(wording abbreviated from the source string, which says one cannot send to a
channel that was not first joined). -/
def notJoinedMsg : String :=
  "cannot send message to a channel of which you have not first joined."

/-- `IRC.prototype._joined`: guards the push with
`this._channels.indexOf(job.target.displayName) < 0` — but no variable `job`
is in scope inside `_joined`, so evaluating the guard raises a ReferenceError
and the push is never reached. -/
def joinedThen (channel : String) (s : JsState) : JsState × Except JsError Unit :=
  match jsVarLookup ("job") with
  | none => (s, Except.error (JsError.referenceError ("job is not defined")))
  | some tdn =>
      if s.channels.contains tdn then (s, Except.ok ())
      else ({ s with channels := s.channels ++ [channel] }, Except.ok ())

/-- `IRC.prototype._left`: computes `this._channels.indexOf(job.target.displayName)`
and splices it out when found — again `job` is not in scope, so the lookup
raises a ReferenceError first. -/
def leftThen (_channel : String) (s : JsState) : JsState × Except JsError Unit :=
  match jsVarLookup ("job") with
  | none => (s, Except.error (JsError.referenceError ("job is not defined")))
  | some tdn => ({ s with channels := s.channels.erase tdn }, Except.ok ())

/-- The fulfilled handler of `IRC.prototype.join` (entered once `_getClient`
has resolved a live client).  Its first statement tests `err`, a variable that
is declared nowhere in the enclosing scopes, so the handler raises a
ReferenceError immediately; the raw JOIN, the `_joined` bookkeeping and the
`done()` call that follow are dead code. -/
def joinThen (job : Job) (s : JsState) : JsState × Except JsError Unit :=
  match jsVarLookup ("err") with
  | none => (s, Except.error (JsError.referenceError ("err is not defined")))
  | some errV =>
      if errV != "" then
        ({ s with callback := s.callback ++ [some errV] }, Except.ok ())
      else
        let s1 := { s with commands := s.commands ++ [RawCmd.joinCmd job.targetDisplayName] }
        match joinedThen job.targetDisplayName s1 with
        | (s2, Except.error e) => (s2, Except.error e)
        | (s2, Except.ok _) =>
            ({ s2 with callback := s2.callback ++ [Option.none] }, Except.ok ())

/-- The fulfilled handler of `IRC.prototype.leave`: issues the raw PART, then
calls `self._leave(...)` — the prototype defines `_left` but no `_leave`, so
the call target is `undefined` and a TypeError is raised before `done()`. -/
def leaveThen (job : Job) (s : JsState) : JsState × Except JsError Unit :=
  let s1 := { s with commands := s.commands ++ [RawCmd.partCmd job.targetDisplayName] }
  (s1, Except.error (JsError.typeError ("self._leave is not a function")))

/-- The fulfilled handler of `IRC.prototype.send`: gate on `_isJoined`, trim
the content, issue the raw PRIVMSG and call `done()`, or call `done` with the
not-joined error value. -/
def sendThen (job : Job) (s : JsState) : JsState × Except JsError Unit :=
  if isJoined s.channels job.targetDisplayName then
    let msg := jsTrim job.content
    let s1 := { s with commands := s.commands ++ [RawCmd.privmsg job.targetDisplayName msg] }
    ({ s1 with callback := s1.callback ++ [Option.none] }, Except.ok ())
  else
    ({ s with callback := s.callback ++ [some notJoinedMsg] }, Except.ok ())

/-- The chained string-or defaults in `update`:
`job.target.displayName || client.credentials.actor.name || ''`. -/
def jsOr3 (a : String) (b : Option String) : Option String :=
  if a != "" then some a
  else
    match b with
    | some s => if s != "" then some s else some ("")
    | none => some ("")

/-- The fulfilled handler of `IRC.prototype.update`: on objectType address it
issues the raw NICK command, builds new credentials carrying the new nick,
persists them with `session.setConfig` under the key `job.target.displayName`,
and calls `session.connection.move` from the client key to the key
`job.target.displayName + "@" + newCreds.object.server`; on objectType topic
it issues the raw topic command; in every case it then calls `done()`. -/
def updateThen (client : Client) (job : Job) (s : JsState) : JsState × Except JsError Unit :=
  if job.objectType == "address" then
    let oldCreds := client.credentials
    let newCreds := { oldCreds with
        nick := job.targetDisplayName,
        actorDisplayName := job.targetDisplayName,
        actorName := jsOr3 job.targetDisplayName oldCreds.actorName }
    let s1 := { s with commands := s.commands ++ [RawCmd.nickCmd job.targetDisplayName] }
    let s2 := { s1 with setConfigCalls :=
        s1.setConfigCalls ++ [(("credentials" : String), job.targetDisplayName, newCreds)] }
    let s3 := { s2 with moveCalls :=
        s2.moveCalls ++ [(client.key, oldCreds,
          job.targetDisplayName ++ ("@") ++ newCreds.server, newCreds)] }
    ({ s3 with callback := s3.callback ++ [Option.none] }, Except.ok ())
  else if job.objectType == "topic" then
    let s1 := { s with commands :=
        s.commands ++ [RawCmd.topicCmd job.targetDisplayName job.topic] }
    ({ s1 with callback := s1.callback ++ [Option.none] }, Except.ok ())
  else
    ({ s with callback := s.callback ++ [Option.none] }, Except.ok ())

/-- The fulfilled handler of `IRC.prototype.observe`: on objectType attendance
it issues the raw NAMES command and calls `done()`; otherwise it calls `done`
with an unknown-objectType error value (source wording abbreviated). -/
def observeThen (job : Job) (s : JsState) : JsState × Except JsError Unit :=
  if job.objectType == "attendance" then
    let s1 := { s with commands := s.commands ++ [RawCmd.namesCmd job.targetDisplayName] }
    ({ s1 with callback := s1.callback ++ [Option.none] }, Except.ok ())
  else
    ({ s with callback := s.callback ++ [some (("unknown objectType ") ++ job.objectType)] },
     Except.ok ())

/-- One dispatched verb operation, with the resolved client where the handler
needs one. -/
inductive Op where
  | opJoin (job : Job)
  | opLeave (job : Job)
  | opSend (job : Job)
  | opUpdate (client : Client) (job : Job)
  | opObserve (job : Job)
  deriving Repr

/-- Run one verb operation over the adapter state. -/
def execOp : Op → JsState → JsState × Except JsError Unit
  | Op.opJoin j, s => joinThen j s
  | Op.opLeave j, s => leaveThen j s
  | Op.opSend j, s => sendThen j s
  | Op.opUpdate c j, s => updateThen c j s
  | Op.opObserve j, s => observeThen j s

/-- Run a sequence of verb operations, threading the adapter state. -/
def runOps : List Op → JsState → JsState
  | [], s => s
  | op :: rest, s => runOps rest (execOp op s).1

/-- A raw backend event as seen by the catch-all listener: each field is
`none` when the property is absent (typeof undefined) and `some` when present
with the type the listener tests for.  `names`, `who` and `motd` are tested
with typeof object and modelled as lists; all other tested fields are
strings. -/
structure IrcEvent where
  names : Option (List String) := none
  channel : Option String := none
  who : Option (List String) := none
  topic : Option String := none
  topicBy : Option String := none
  newnick : Option String := none
  nickname : Option String := none
  target : Option String := none
  message : Option String := none
  motd : Option (List String) := none
  mode : Option String := none
  raw : Option String := none
  deriving Repr, DecidableEq

/-- The object part of a canonical message the IRC listener sends. -/
inductive MsgObject where
  | attendance (members : List String)
  | topicObj (t : String)
  | addressObj
  | emptyObj
  | textObj (t : String)
  deriving Repr, DecidableEq

/-- A canonical message sent by the IRC listener through `session.send`:
verb, actor address, target address (the single element of the target array)
and object.  Addresses are optional because the listener copies possibly
absent event fields into them. -/
structure IrcMessage where
  verb : String
  actorAddress : Option String := none
  targetAddress : Option String := none
  object : MsgObject := MsgObject.emptyObj
  deriving Repr, DecidableEq

/-- The TypeError raised by `object.raw.indexOf(...)` when `raw` is absent. -/
def rawIndexOfError : JsError :=
  JsError.typeError ("cannot read property indexOf of undefined")

/-- Message of the user-list branch. -/
def namesMsg (o : IrcEvent) : IrcMessage :=
  { verb := "observe", actorAddress := o.channel, targetAddress := o.channel,
    object := MsgObject.attendance (o.names.getD []) }

/-- Message of the topic-change branch. -/
def topicMsg (o : IrcEvent) : IrcMessage :=
  { verb := "update", actorAddress := o.topicBy, targetAddress := o.channel,
    object := MsgObject.topicObj (o.topic.getD ("")) }

/-- Message of the nick-change branch. -/
def renameMsg (o : IrcEvent) : IrcMessage :=
  { verb := "update", actorAddress := o.nickname, targetAddress := o.newnick,
    object := MsgObject.addressObj }

/-- Message of the join branch. -/
def joinMsg (o : IrcEvent) : IrcMessage :=
  { verb := "join", actorAddress := o.nickname, targetAddress := o.channel,
    object := MsgObject.emptyObj }

/-- Message of the private/room message branch. -/
def sendMsg (o : IrcEvent) : IrcMessage :=
  { verb := "send", actorAddress := o.nickname, targetAddress := o.target,
    object := MsgObject.textObj (o.message.getD ("")) }

/-- Message of the quit branch: empty target address, fixed reason text. -/
def quitMsg (o : IrcEvent) : IrcMessage :=
  { verb := "leave", actorAddress := o.nickname, targetAddress := some (""),
    object := MsgObject.textObj ("user has quit") }

/-- Message of the part branch: the target address copies `object.target`
(which may be absent here), fixed reason text. -/
def partMsg (o : IrcEvent) : IrcMessage :=
  { verb := "leave", actorAddress := o.nickname, targetAddress := o.target,
    object := MsgObject.textObj ("user has left the channel") }

/-- Tail of the listener chain from the PART test on: the condition
`typeof object.channel === string && object.raw.indexOf(" PART ") >= 0`
dereferences `raw` unguarded, and an event matching nothing is dropped. -/
def chainPart (o : IrcEvent) : Except JsError (List IrcMessage) :=
  if o.channel.isSome then
    match o.raw with
    | none => Except.error rawIndexOfError
    | some r =>
        if occursIn (" PART ") r then Except.ok [partMsg o] else Except.ok []
  else Except.ok []

/-- Tail of the chain from the quit test on:
`typeof object.nickname === string && typeof object.target === undefined`. -/
def chainQuit (o : IrcEvent) : Except JsError (List IrcMessage) :=
  if o.nickname.isSome && o.target.isNone then Except.ok [quitMsg o]
  else chainPart o

/-- Tail of the chain from the mode test on: a string `mode` is skipped. -/
def chainMode (o : IrcEvent) : Except JsError (List IrcMessage) :=
  if o.mode.isSome then Except.ok [] else chainQuit o

/-- Tail of the chain from the motd test on: an object `motd` is skipped. -/
def chainMotd (o : IrcEvent) : Except JsError (List IrcMessage) :=
  if o.motd.isSome then Except.ok [] else chainMode o

/-- Tail of the chain from the message test on: target and message both
strings; a falsy nickname is logged and dropped instead of forwarded. -/
def chainMessage (o : IrcEvent) : Except JsError (List IrcMessage) :=
  if o.target.isSome && o.message.isSome then
    if jsTruthy o.nickname then Except.ok [sendMsg o] else Except.ok []
  else chainMotd o

/-- Tail of the chain from the JOIN test on: like the PART test this
dereferences `raw` unguarded once `channel` is a string; a falsy nickname is
logged and dropped. -/
def chainJoin (o : IrcEvent) : Except JsError (List IrcMessage) :=
  if o.channel.isSome then
    match o.raw with
    | none => Except.error rawIndexOfError
    | some r =>
        if occursIn (" JOIN ") r then
          if jsTruthy o.nickname then Except.ok [joinMsg o] else Except.ok []
        else chainMessage o
  else chainMessage o

/-- Tail of the chain from the nick-change test on: a string `newnick`. -/
def chainRename (o : IrcEvent) : Except JsError (List IrcMessage) :=
  if o.newnick.isSome then Except.ok [renameMsg o] else chainJoin o

/-- Tail of the chain from the topic test on: `topic` and `topicBy` both
strings. -/
def chainTopic (o : IrcEvent) : Except JsError (List IrcMessage) :=
  if o.topic.isSome && o.topicBy.isSome then Except.ok [topicMsg o]
  else chainRename o

/-- Tail of the chain from the full-who test on: channel string plus who
object, skipped with no message. -/
def chainWho (o : IrcEvent) : Except JsError (List IrcMessage) :=
  if o.channel.isSome && o.who.isSome then Except.ok [] else chainTopic o

/-- The catch-all listener of the IRC adapter
(`listeners[*]` in `_createClient`): the full structural else-if chain, in
source order, returning the list of canonical messages sent for the event
(empty = dropped) or the runtime error it raises. -/
def classifyIrc (o : IrcEvent) : Except JsError (List IrcMessage) :=
  if o.names.isSome then Except.ok [namesMsg o] else chainWho o

/-- The structural shapes of the event-classification chain, named after the
spec section that lists them. -/
inductive Shape where
  | rosterShape
  | whoShape
  | topicShape
  | renameShape
  | joinShape
  | msgShape
  | motdShape
  | modeShape
  | quitShape
  | partShape
  deriving Repr, DecidableEq

/-- The structural test of each shape, as the listener would evaluate it
(the join and part tests can raise a TypeError through the unguarded `raw`
access). -/
def shapeTest (sh : Shape) (o : IrcEvent) : Except JsError Bool :=
  match sh with
  | Shape.rosterShape => Except.ok o.names.isSome
  | Shape.whoShape => Except.ok (o.channel.isSome && o.who.isSome)
  | Shape.topicShape => Except.ok (o.topic.isSome && o.topicBy.isSome)
  | Shape.renameShape => Except.ok o.newnick.isSome
  | Shape.joinShape =>
      if o.channel.isSome then
        match o.raw with
        | none => Except.error rawIndexOfError
        | some r => Except.ok (occursIn (" JOIN ") r)
      else Except.ok false
  | Shape.msgShape => Except.ok (o.target.isSome && o.message.isSome)
  | Shape.motdShape => Except.ok o.motd.isSome
  | Shape.modeShape => Except.ok o.mode.isSome
  | Shape.quitShape => Except.ok (o.nickname.isSome && o.target.isNone)
  | Shape.partShape =>
      if o.channel.isSome then
        match o.raw with
        | none => Except.error rawIndexOfError
        | some r => Except.ok (occursIn (" PART ") r)
      else Except.ok false

/-- The messages a matched shape sends (zero or one). -/
def shapeOut (sh : Shape) (o : IrcEvent) : List IrcMessage :=
  match sh with
  | Shape.rosterShape => [namesMsg o]
  | Shape.whoShape => []
  | Shape.topicShape => [topicMsg o]
  | Shape.renameShape => [renameMsg o]
  | Shape.joinShape => if jsTruthy o.nickname then [joinMsg o] else []
  | Shape.msgShape => if jsTruthy o.nickname then [sendMsg o] else []
  | Shape.motdShape => []
  | Shape.modeShape => []
  | Shape.quitShape => [quitMsg o]
  | Shape.partShape => [partMsg o]

/-- First-match evaluation of an ordered list of shapes: the first shape whose
test succeeds wins; a test error aborts; no match drops the event. -/
def firstMatch : List Shape → IrcEvent → Except JsError (List IrcMessage)
  | [], _ => Except.ok []
  | sh :: rest, o =>
      match shapeTest sh o with
      | Except.error e => Except.error e
      | Except.ok b => if b then Except.ok (shapeOut sh o) else firstMatch rest o

/-- The precedence order the source code actually implements: the ignorable
motd and mode shapes come before the quit and part shapes. -/
def codeOrder : List Shape :=
  [Shape.rosterShape, Shape.whoShape, Shape.topicShape, Shape.renameShape,
   Shape.joinShape, Shape.msgShape, Shape.motdShape, Shape.modeShape,
   Shape.quitShape, Shape.partShape]

/-- Modelled from the spec: the precedence order claimed in section 4.3 of the
spec — roster snapshot, topic change, identity rename, join, direct/room
message, disconnect/quit, part, then the known-ignorable motd and mode
payloads, then silent drop. -/
def specOrder : List Shape :=
  [Shape.rosterShape, Shape.topicShape, Shape.renameShape, Shape.joinShape,
   Shape.msgShape, Shape.quitShape, Shape.partShape, Shape.motdShape,
   Shape.modeShape]

/-- The stanza attributes the XMPP incoming handlers read.  Each is `none`
when absent. -/
structure XAttrs where
  typeA : Option String := none
  fromA : Option String := none
  toA : Option String := none
  idA : Option String := none
  jid : Option String := none
  nameA : Option String := none
  subscription : Option String := none
  ask : Option String := none
  deriving Repr, DecidableEq

/-- An XML element as the handlers see it: element name, attributes, child
elements, and its string serialization (the result of `toString`). -/
inductive XmlElem where
  | node (elemName : String) (attrs : XAttrs) (children : List XmlElem) (str : String)

/-- The element name. -/
def XmlElem.elemName : XmlElem → String
  | XmlElem.node n _ _ _ => n

/-- The attributes. -/
def XmlElem.attrs : XmlElem → XAttrs
  | XmlElem.node _ a _ _ => a

/-- The child elements. -/
def XmlElem.children : XmlElem → List XmlElem
  | XmlElem.node _ _ c _ => c

/-- The string serialization, as returned by `toString`. -/
def XmlElem.str : XmlElem → String
  | XmlElem.node _ _ _ s => s

/-- Model of `stanza.is(name)`: does the element have this name. -/
def XmlElem.isA (e : XmlElem) (n : String) : Bool :=
  e.elemName == n

/-- Model of `getChild(name)`: the first child with this element name. -/
def XmlElem.getChild (e : XmlElem) (n : String) : Option XmlElem :=
  (e.children.filter (fun c => c.elemName == n)).head?

/-- Model of `getChildren(name)`: all children with this element name. -/
def XmlElem.getChildren (e : XmlElem) (n : String) : List XmlElem :=
  e.children.filter (fun c => c.elemName == n)

/-- A canonical message sent to the client by the XMPP handlers, flattened to
the fields the handlers actually populate. -/
structure XmppMessage where
  atType : String
  actorId : Option String := none
  actorType : Option String := none
  actorName : Option String := none
  objType : Option String := none
  content : Option String := none
  presence : Option String := none
  statusText : Option String := none
  targetId : Option String := none
  targetType : Option String := none
  deriving Repr, DecidableEq

/-- The outcome of running an incoming handler on one stanza: the canonical
messages it sent to the client, in order, and the runtime error that ended it,
if any (messages already sent before the error stay sent). -/
structure HandlerResult where
  sent : List XmppMessage := []
  failure : Option JsError := none
  deriving Repr, DecidableEq

/-- The roster-query loop of `IncomingHandlers.__stanza`: one message per
item entry.  An entry with subscription both evaluates `state`, a variable
bound nowhere in the file, so it raises a ReferenceError; an entry with
subscription from and a pending ask subscribe produces a not-authorized
presence update; every other entry produces a request-friend message. -/
def rosterLoop (selfActor : String) : List XmlElem → HandlerResult
  | [] => {}
  | entry :: rest =>
      if entry.attrs.subscription == some ("both") then
        { sent := [], failure := some (JsError.referenceError ("state is not defined")) }
      else
        let msg :=
          if entry.attrs.subscription == some ("from") && jsTruthy entry.attrs.ask
              && entry.attrs.ask == some ("subscribe") then
            ({ atType := "update", actorId := entry.attrs.jid,
               actorName := entry.attrs.nameA, objType := some ("presence"),
               statusText := some (""), presence := some ("notauthorized"),
               targetId := some selfActor } : XmppMessage)
          else
            ({ atType := "request-friend", actorId := entry.attrs.jid,
               actorName := entry.attrs.nameA,
               targetId := some selfActor } : XmppMessage)
        let r := rosterLoop selfActor rest
        { sent := msg :: r.sent, failure := r.failure }

/-- `IncomingHandlers.__stanza`.  An error-typed stanza is translated to one
canonical error message whose type is message, overridden to update for a
presence stanza, overridden again to join when the error element carries a
remote-server-not-found child; its content is the error element serialization
(or the whole stanza serialization when no error element exists, or a fixed
text naming the room for remote-server-not-found).  An iq stanza with the
muc attendance id calls `this.roomAttendance`, a method the class does not
define, raising a TypeError; otherwise its query children are fed to the
roster loop.  Anything else is dropped. -/
def stanzaHandler (selfActor : String) (stanza : XmlElem) : HandlerResult :=
  if stanza.attrs.typeA == some ("error") then
    let t1 := if stanza.isA ("presence") then "update" else "message"
    match stanza.getChild ("error") with
    | none =>
        let m : XmppMessage :=
          { atType := t1, actorId := stanza.attrs.fromA,
            actorType := some ("room"), objType := some ("error"),
            content := some stanza.str,
            targetId := stanza.attrs.toA, targetType := some ("person") }
        { sent := [m] }
    | some errEl =>
        if (errEl.getChild ("remote-server-not-found")).isSome then
          let m : XmppMessage :=
            { atType := "join", actorId := stanza.attrs.fromA,
              actorType := some ("room"), objType := some ("error"),
              content := some (("remote server not found ") ++ jsToStr stanza.attrs.fromA),
              targetId := stanza.attrs.toA, targetType := some ("person") }
          { sent := [m] }
        else
          let m : XmppMessage :=
            { atType := t1, actorId := stanza.attrs.fromA,
              actorType := some ("room"), objType := some ("error"),
              content := some errEl.str,
              targetId := stanza.attrs.toA, targetType := some ("person") }
          { sent := [m] }
  else if stanza.isA ("iq") then
    if stanza.attrs.idA == some ("muc_id") && stanza.attrs.typeA == some ("result") then
      { sent := [],
        failure := some (JsError.typeError ("this.roomAttendance is not a function")) }
    else
      match stanza.getChild ("query") with
      | none => {}
      | some q => rosterLoop selfActor (q.getChildren ("item"))
  else {}

/-- Does the stanza carry a remote-server-not-found sub-reason inside its
error element. -/
def hasRsnf (st : XmlElem) : Bool :=
  match st.getChild ("error") with
  | some e => (e.getChild ("remote-server-not-found")).isSome
  | none => false

/-- The error text the handler forwards as the message content. -/
def errTextOf (st : XmlElem) : String :=
  match st.getChild ("error") with
  | none => st.str
  | some e =>
      if (e.getChild ("remote-server-not-found")).isSome then
        ("remote server not found ") ++ jsToStr st.attrs.fromA
      else e.str

/-- The single canonical message the error branch sends for an error-typed
stanza. -/
def errMsgOf (st : XmlElem) : XmppMessage :=
  { atType := if hasRsnf st then "join"
      else if st.isA ("presence") then "update" else "message",
    actorId := st.attrs.fromA, actorType := some ("room"),
    objType := some ("error"), content := some (errTextOf st),
    targetId := st.attrs.toA, targetType := some ("person") }

/-- The session surface as `referenceProtection` sees it: the captured actor
id and, for each wrapped capability, whether the underlying session still
exposes it as a function. -/
structure GuardedSession where
  actorId : String := ""
  hasDebug : Bool := true
  hasSendToClient : Bool := true
  deriving Repr, DecidableEq

/-- An argument passed through the guard: a debug string or a canonical
message. -/
inductive GuardArg where
  | strArg (s : String)
  | msgArg (m : XmppMessage)
  deriving Repr, DecidableEq

/-- One invocation that actually reached the underlying session. -/
structure SessionCall where
  funcName : String
  arg : GuardArg
  deriving Repr, DecidableEq

/-- Model of `typeof session[funcName] === function`. -/
def sessionHasFn (s : GuardedSession) (funcName : String) : Bool :=
  if funcName == "debug" then s.hasDebug
  else if funcName == "sendToClient" then s.hasSendToClient
  else false

/-- Model of the wrapper `checkScope(funcName)` applied to an argument: the
underlying session function is invoked only when it still exists; otherwise
the call does nothing and returns normally.  The wrapper itself never
raises. -/
def checkScope (s : GuardedSession) (funcName : String) (msg : GuardArg) :
    Except JsError (List SessionCall) :=
  Except.ok (if sessionHasFn s funcName then [{ funcName := funcName, arg := msg }] else [])

/-- The underlying session has been torn down: neither wrapped capability
exists any more. -/
def tornDown (s : GuardedSession) : Prop :=
  s.hasDebug = false ∧ s.hasSendToClient = false

/-- The close message `IncomingHandlers.close` sends: type close, actor and
target both the session actor. -/
def closeMsgOf (s : GuardedSession) : XmppMessage :=
  { atType := "close", actorId := some s.actorId, targetId := some s.actorId }

/-- `IncomingHandlers.close`: two delegated debug calls and one delegated
sendToClient call through the guard, then
`this.session.connection.disconnect()` — the guard object built by
`referenceProtection` exposes only actor, debug and sendToClient, so
`this.session.connection` is undefined and dereferencing disconnect on it
raises a TypeError (whether or not the session was torn down). -/
def closeHandler (s : GuardedSession) : Except JsError (List SessionCall) :=
  match checkScope s ("debug") (GuardArg.strArg ("received close event with no handler specified")) with
  | Except.error e => Except.error e
  | Except.ok _ =>
      match checkScope s ("sendToClient") (GuardArg.msgArg (closeMsgOf s)) with
      | Except.error e => Except.error e
      | Except.ok _ =>
          match checkScope s ("debug")
              (GuardArg.strArg (("**** xmpp this.session.for ") ++ s.actorId ++ (" closed"))) with
          | Except.error e => Except.error e
          | Except.ok _ =>
              Except.error (JsError.typeError ("cannot read property disconnect of undefined"))

/-- Example join job: the documented join example of the source. -/
def joinJob1 : Job :=
  { actorId := "irc://slvrbckt@irc.freenode.net", actorDisplayName := "slvrbckt",
    targetDisplayName := "#sockethub" }

/-- Example leave job for the same channel. -/
def leaveJob1 : Job :=
  { actorId := "irc://slvrbckt@irc.freenode.net", actorDisplayName := "slvrbckt",
    targetDisplayName := "#sockethub" }

/-- Example join job used for the membership scenario. -/
def joinJob3 : Job :=
  { actorId := "irc://alice@irc.example.com", actorDisplayName := "alice",
    targetDisplayName := "#room" }

/-- Example pooled client for the rename scenario of the spec: actor alice. -/
def client0 : Client :=
  { key := "alice@irc.example.com",
    credentials := { nick := "alice", server := "irc.example.com",
                     actorId := "irc://alice@irc.example.com",
                     actorDisplayName := "alice", actorName := some ("alice") } }

/-- Example update job renaming alice to alice2. -/
def job0 : Job :=
  { actorId := "irc://alice@irc.example.com", actorDisplayName := "alice",
    targetDisplayName := "alice2", objectType := "address" }

/-- Backend event that is simultaneously motd-shaped (object `motd`) and
quit-shaped (string `nickname`, no `target`): the two claimed precedence
orders classify it differently. -/
def ev6 : IrcEvent :=
  { motd := some [], nickname := some ("alice") }

/-- Backend event with a string `channel` and no `raw` property: the join
test dereferences `raw` and dies. -/
def ev7 : IrcEvent :=
  { channel := some ("#chan") }

/-- An iq roster result with two item entries, subscription none: the roster
loop sends one request-friend message per entry. -/
def rosterTwoStanza : XmlElem :=
  XmlElem.node ("iq") ({ typeA := some ("result") })
    [XmlElem.node ("query") ({})
      [XmlElem.node ("item") ({ subscription := some ("none"), jid := some ("bob@host"),
                                nameA := some ("Bob") }) [] (""),
       XmlElem.node ("item") ({ subscription := some ("none"), jid := some ("carol@host"),
                                nameA := some ("Carol") }) [] ("")] ("")]
    ("")

/-- An iq roster result whose item has subscription both: the handler
evaluates the unbound variable `state` and dies. -/
def rosterBothStanza : XmlElem :=
  XmlElem.node ("iq") ({ typeA := some ("result") })
    [XmlElem.node ("query") ({})
      [XmlElem.node ("item") ({ subscription := some ("both"), jid := some ("bob@host"),
                                nameA := some ("Bob") }) [] ("")] ("")]
    ("")

/-- An error-typed presence stanza whose error element carries
remote-server-not-found: a failed room join. -/
def joinErrStanza : XmlElem :=
  XmlElem.node ("presence")
    ({ typeA := some ("error"), fromA := some ("room1@muc.example.com"),
       toA := some ("alice@example.com") })
    [XmlElem.node ("error") ({})
      [XmlElem.node ("remote-server-not-found") ({}) [] ("")]
      ("error-element-text")]
    ("full-stanza-text")

/-- A session guard whose underlying session has been torn down. -/
def tornSession0 : GuardedSession :=
  { actorId := "xmpp://alice@example.com", hasDebug := false, hasSendToClient := false }

lemma execOp_channels (op : Op) (s : JsState) : ((execOp op s).1).channels = s.channels := by
  cases op with
  | opJoin j => simp [execOp, joinThen, jsVarLookup]
  | opLeave j => simp [execOp, leaveThen]
  | opSend j =>
      simp only [execOp, sendThen]
      split <;> simp
  | opUpdate c j =>
      simp only [execOp, updateThen]
      split <;> try split
      all_goals simp
  | opObserve j =>
      simp only [execOp, observeThen]
      split <;> simp

lemma runOps_channels (ops : List Op) : ∀ s : JsState, (runOps ops s).channels = s.channels := by
  induction ops with
  | nil => intro s; rfl
  | cons op rest ih =>
      intro s
      calc (runOps (op :: rest) s).channels
          = ((execOp op s).1).channels := ih (execOp op s).1
        _ = s.channels := execOp_channels op s

lemma fmPart (o : IrcEvent) : firstMatch [Shape.partShape] o = chainPart o := by
  unfold firstMatch chainPart
  simp only [shapeTest, shapeOut]
  by_cases hc : o.channel.isSome
  · simp only [hc, if_true]
    cases hr : o.raw <;> simp [firstMatch]
  · simp [hc, firstMatch]

lemma fmQuit (o : IrcEvent) :
    firstMatch [Shape.quitShape, Shape.partShape] o = chainQuit o := by
  unfold chainQuit
  rw [show firstMatch [Shape.quitShape, Shape.partShape] o
      = (match shapeTest Shape.quitShape o with
         | Except.error e => Except.error e
         | Except.ok b => if b then Except.ok (shapeOut Shape.quitShape o)
                          else firstMatch [Shape.partShape] o) from rfl]
  simp only [shapeTest, shapeOut]
  by_cases h : o.nickname.isSome && o.target.isNone <;> simp [h, fmPart]

lemma fmMode (o : IrcEvent) :
    firstMatch [Shape.modeShape, Shape.quitShape, Shape.partShape] o = chainMode o := by
  unfold chainMode
  rw [show firstMatch [Shape.modeShape, Shape.quitShape, Shape.partShape] o
      = (match shapeTest Shape.modeShape o with
         | Except.error e => Except.error e
         | Except.ok b => if b then Except.ok (shapeOut Shape.modeShape o)
                          else firstMatch [Shape.quitShape, Shape.partShape] o) from rfl]
  simp only [shapeTest, shapeOut]
  by_cases h : o.mode.isSome <;> simp [h, fmQuit]

lemma fmMotd (o : IrcEvent) :
    firstMatch [Shape.motdShape, Shape.modeShape, Shape.quitShape, Shape.partShape] o
      = chainMotd o := by
  unfold chainMotd
  rw [show firstMatch [Shape.motdShape, Shape.modeShape, Shape.quitShape, Shape.partShape] o
      = (match shapeTest Shape.motdShape o with
         | Except.error e => Except.error e
         | Except.ok b => if b then Except.ok (shapeOut Shape.motdShape o)
                          else firstMatch [Shape.modeShape, Shape.quitShape, Shape.partShape] o)
      from rfl]
  simp only [shapeTest, shapeOut]
  by_cases h : o.motd.isSome <;> simp [h, fmMode]

lemma fmMsg (o : IrcEvent) :
    firstMatch [Shape.msgShape, Shape.motdShape, Shape.modeShape, Shape.quitShape,
      Shape.partShape] o = chainMessage o := by
  unfold chainMessage
  rw [show firstMatch [Shape.msgShape, Shape.motdShape, Shape.modeShape, Shape.quitShape,
        Shape.partShape] o
      = (match shapeTest Shape.msgShape o with
         | Except.error e => Except.error e
         | Except.ok b => if b then Except.ok (shapeOut Shape.msgShape o)
                          else firstMatch [Shape.motdShape, Shape.modeShape, Shape.quitShape,
                            Shape.partShape] o) from rfl]
  simp only [shapeTest, shapeOut]
  by_cases h : o.target.isSome && o.message.isSome
  · by_cases hn : jsTruthy o.nickname <;> simp [h, hn]
  · simp [h, fmMotd]

lemma fmJoin (o : IrcEvent) :
    firstMatch [Shape.joinShape, Shape.msgShape, Shape.motdShape, Shape.modeShape,
      Shape.quitShape, Shape.partShape] o = chainJoin o := by
  unfold chainJoin
  rw [show firstMatch [Shape.joinShape, Shape.msgShape, Shape.motdShape, Shape.modeShape,
        Shape.quitShape, Shape.partShape] o
      = (match shapeTest Shape.joinShape o with
         | Except.error e => Except.error e
         | Except.ok b => if b then Except.ok (shapeOut Shape.joinShape o)
                          else firstMatch [Shape.msgShape, Shape.motdShape, Shape.modeShape,
                            Shape.quitShape, Shape.partShape] o) from rfl]
  simp only [shapeTest, shapeOut]
  by_cases hc : o.channel.isSome
  · simp only [hc, if_true]
    cases hr : o.raw with
    | none => simp
    | some r =>
        by_cases hj : occursIn (" JOIN ") r
        · by_cases hn : jsTruthy o.nickname <;> simp [hj, hn]
        · simp [hj, fmMsg]
  · simp [hc, fmMsg]

lemma fmRename (o : IrcEvent) :
    firstMatch [Shape.renameShape, Shape.joinShape, Shape.msgShape, Shape.motdShape,
      Shape.modeShape, Shape.quitShape, Shape.partShape] o = chainRename o := by
  unfold chainRename
  rw [show firstMatch [Shape.renameShape, Shape.joinShape, Shape.msgShape, Shape.motdShape,
        Shape.modeShape, Shape.quitShape, Shape.partShape] o
      = (match shapeTest Shape.renameShape o with
         | Except.error e => Except.error e
         | Except.ok b => if b then Except.ok (shapeOut Shape.renameShape o)
                          else firstMatch [Shape.joinShape, Shape.msgShape, Shape.motdShape,
                            Shape.modeShape, Shape.quitShape, Shape.partShape] o) from rfl]
  simp only [shapeTest, shapeOut]
  by_cases h : o.newnick.isSome <;> simp [h, fmJoin]

lemma fmTopic (o : IrcEvent) :
    firstMatch [Shape.topicShape, Shape.renameShape, Shape.joinShape, Shape.msgShape,
      Shape.motdShape, Shape.modeShape, Shape.quitShape, Shape.partShape] o = chainTopic o := by
  unfold chainTopic
  rw [show firstMatch [Shape.topicShape, Shape.renameShape, Shape.joinShape, Shape.msgShape,
        Shape.motdShape, Shape.modeShape, Shape.quitShape, Shape.partShape] o
      = (match shapeTest Shape.topicShape o with
         | Except.error e => Except.error e
         | Except.ok b => if b then Except.ok (shapeOut Shape.topicShape o)
                          else firstMatch [Shape.renameShape, Shape.joinShape, Shape.msgShape,
                            Shape.motdShape, Shape.modeShape, Shape.quitShape,
                            Shape.partShape] o) from rfl]
  simp only [shapeTest, shapeOut]
  by_cases h : o.topic.isSome && o.topicBy.isSome <;> simp [h, fmRename]

lemma fmWho (o : IrcEvent) :
    firstMatch [Shape.whoShape, Shape.topicShape, Shape.renameShape, Shape.joinShape,
      Shape.msgShape, Shape.motdShape, Shape.modeShape, Shape.quitShape, Shape.partShape] o
      = chainWho o := by
  unfold chainWho
  rw [show firstMatch [Shape.whoShape, Shape.topicShape, Shape.renameShape, Shape.joinShape,
        Shape.msgShape, Shape.motdShape, Shape.modeShape, Shape.quitShape, Shape.partShape] o
      = (match shapeTest Shape.whoShape o with
         | Except.error e => Except.error e
         | Except.ok b => if b then Except.ok (shapeOut Shape.whoShape o)
                          else firstMatch [Shape.topicShape, Shape.renameShape, Shape.joinShape,
                            Shape.msgShape, Shape.motdShape, Shape.modeShape, Shape.quitShape,
                            Shape.partShape] o) from rfl]
  simp only [shapeTest, shapeOut]
  by_cases h : o.channel.isSome && o.who.isSome <;> simp [h, fmTopic]

lemma classify_eq_firstMatch (o : IrcEvent) : classifyIrc o = firstMatch codeOrder o := by
  unfold classifyIrc codeOrder
  rw [show firstMatch [Shape.rosterShape, Shape.whoShape, Shape.topicShape, Shape.renameShape,
        Shape.joinShape, Shape.msgShape, Shape.motdShape, Shape.modeShape, Shape.quitShape,
        Shape.partShape] o
      = (match shapeTest Shape.rosterShape o with
         | Except.error e => Except.error e
         | Except.ok b => if b then Except.ok (shapeOut Shape.rosterShape o)
                          else firstMatch [Shape.whoShape, Shape.topicShape, Shape.renameShape,
                            Shape.joinShape, Shape.msgShape, Shape.motdShape, Shape.modeShape,
                            Shape.quitShape, Shape.partShape] o) from rfl]
  simp only [shapeTest, shapeOut]
  by_cases h : o.names.isSome <;> simp [h, fmWho]

lemma shapeOut_len (sh : Shape) (o : IrcEvent) : (shapeOut sh o).length ≤ 1 := by
  cases sh <;> simp only [shapeOut] <;> first
    | simp
    | (split <;> simp)

lemma firstMatch_len (l : List Shape) : ∀ (o : IrcEvent) (msgs : List IrcMessage),
    firstMatch l o = Except.ok msgs → msgs.length ≤ 1 := by
  induction l with
  | nil =>
      intro o msgs h
      have : msgs = [] := by
        have h2 : Except.ok ([] : List IrcMessage) = (Except.ok msgs : Except JsError _) := h
        exact (Except.ok.injEq _ _).mp h2.symm
      simp [this]
  | cons sh rest ih =>
      intro o msgs h
      unfold firstMatch at h
      cases hts : shapeTest sh o with
      | error e => rw [hts] at h; cases h
      | ok b =>
          rw [hts] at h
          cases b with
          | false =>
              simp only [if_false, Bool.false_eq_true] at h
              exact ih o msgs h
          | true =>
              simp only [if_true] at h
              have : shapeOut sh o = msgs := (Except.ok.injEq _ _).mp h
              rw [← this]
              exact shapeOut_len sh o

lemma errorStanzaMessage (a : String) (st : XmlElem)
    (h : st.attrs.typeA = some ("error")) :
    stanzaHandler a st = { sent := [errMsgOf st], failure := none } := by
  have hb : (st.attrs.typeA == some ("error")) = true := by rw [h]; rfl
  unfold stanzaHandler
  simp only [hb, if_true]
  cases hge : st.getChild ("error") with
  | none => simp [hge, errMsgOf, hasRsnf, errTextOf]
  | some e =>
      by_cases hr : (e.getChild ("remote-server-not-found")).isSome
      · simp [hge, hr, errMsgOf, hasRsnf, errTextOf]
      · simp [hge, hr, errMsgOf, hasRsnf, errTextOf]

/-- Claim C1: the claim says that once a live connection is resolved every
verb handler invokes the completion callback exactly once on every execution
path.  The code violates this: evaluated at concrete join and leave jobs with
a resolved client, the join handler dies on the undeclared variable `err` and
the leave handler dies calling the nonexistent `self._leave` (after issuing
the raw PART), so in both cases `done` is never invoked. -/
theorem join_leave_drop_completion_callback :
    ((joinThen joinJob1 initState).1).callback = []
    ∧ (joinThen joinJob1 initState).2
        = Except.error (JsError.referenceError ("err is not defined"))
    ∧ ((leaveThen leaveJob1 initState).1).callback = []
    ∧ ((leaveThen leaveJob1 initState).1).commands = [RawCmd.partCmd ("#sockethub")]
    ∧ (leaveThen leaveJob1 initState).2
        = Except.error (JsError.typeError ("self._leave is not a function")) :=
  ⟨rfl, rfl, rfl, rfl, rfl⟩

/-- Claim C2: a send whose target display name has the room shape (leading
hash) and is not in the membership state gets the not-joined error on its
callback and issues no backend command, and a send to a target without the
room shape always forwards the trimmed content as a raw PRIVMSG and succeeds. -/
theorem send_room_gate_and_direct_forward (st : JsState) (job : Job) :
    (startsWithHash job.targetDisplayName = true →
      st.channels.contains job.targetDisplayName = false →
      sendThen job st
        = ({ st with callback := st.callback ++ [some notJoinedMsg] }, Except.ok ()))
    ∧ (startsWithHash job.targetDisplayName = false →
      sendThen job st
        = ({ st with
             commands := st.commands
               ++ [RawCmd.privmsg job.targetDisplayName (jsTrim job.content)],
             callback := st.callback ++ [Option.none] }, Except.ok ())) := by
  constructor
  · intro h1 h2
    have h3 : job.targetDisplayName ∉ st.channels := by simpa using h2
    unfold sendThen isJoined
    simp [h1, h3]
  · intro h1
    unfold sendThen isJoined
    simp [h1]

/-- Witness for C2 at concrete inputs: an unjoined room target and a direct
person target. -/
theorem send_room_gate_witness :
    (startsWithHash ("#room") = true
      ∧ initState.channels.contains ("#room") = false
      ∧ sendThen ({ targetDisplayName := "#room", content := " hi " } : Job) initState
          = ({ initState with callback := initState.callback ++ [some notJoinedMsg] },
             Except.ok ()))
    ∧ (startsWithHash ("bob") = false
      ∧ sendThen ({ targetDisplayName := "bob", content := " hi " } : Job) initState
          = ({ initState with
               commands := initState.commands ++ [RawCmd.privmsg ("bob") (jsTrim (" hi "))],
               callback := initState.callback ++ [Option.none] }, Except.ok ())) := by
  refine ⟨⟨rfl, rfl, ?_⟩, rfl, ?_⟩
  · exact (send_room_gate_and_direct_forward initState
      ({ targetDisplayName := "#room", content := " hi " } : Job)).1 rfl rfl
  · exact (send_room_gate_and_direct_forward initState
      ({ targetDisplayName := "bob", content := " hi " } : Job)).2 rfl

/-- Claim C3: the claim says a join for a room target on a resolvable
connection ends with the target in the membership state and a success
callback.  The code violates this: at a concrete join job for a room target
with a resolved client, the handler dies on the undeclared variable `err`
before issuing the raw JOIN, before touching `_channels` and before calling
`done`. -/
theorem join_crashes_before_membership_update :
    joinThen joinJob3 initState
      = (initState, Except.error (JsError.referenceError ("err is not defined")))
    ∧ ((joinThen joinJob3 initState).1).channels = []
    ∧ ((joinThen joinJob3 initState).1).commands = []
    ∧ ((joinThen joinJob3 initState).1).callback = [] :=
  ⟨rfl, rfl, rfl, rfl⟩

lemma ne_append_at (a b : String) : a ≠ a ++ ("@") ++ b := by
  intro h
  have hlen := congrArg String.length h
  rw [String.length_append, String.length_append] at hlen
  rw [show ("@").length = 1 from rfl] at hlen
  omega

/-- Counterexample for claim C4: with the underlying session torn down, the
close handler still dies — its delegated debug and sendToClient calls are
no-ops, but it then dereferences `this.session.connection`, which the guard
object does not expose, and raises a TypeError.  So not every call an
incoming-event handler makes through the guard after teardown returns
normally. -/
theorem close_after_teardown_raises :
    tornDown tornSession0
    ∧ closeHandler tornSession0
        = Except.error (JsError.typeError ("cannot read property disconnect of undefined")) :=
  ⟨⟨rfl, rfl⟩, rfl⟩

/-- Claim C4 (amended): after teardown, every delegated call to one of the
capabilities the guard actually wraps (debug, sendToClient) is a no-op that
returns normally and raises no error; the close handler nevertheless raises a
TypeError, torn down or not, because it also reaches for
`session.connection`, which the guard never exposes. -/
theorem guard_delegated_calls_noop (s : GuardedSession) (funcName : String) (msg : GuardArg)
    (h : tornDown s) :
    checkScope s funcName msg = Except.ok ([] : List SessionCall)
    ∧ closeHandler s
        = Except.error (JsError.typeError ("cannot read property disconnect of undefined")) := by
  obtain ⟨hd, hs⟩ := h
  constructor
  · have hfn : sessionHasFn s funcName = false := by
      unfold sessionHasFn
      split
      · exact hd
      · split
        · exact hs
        · rfl
    simp [checkScope, hfn]
  · rfl

/-- Witness for C4 (amended) at a concrete torn-down session. -/
theorem guard_noop_witness :
    tornDown tornSession0
    ∧ checkScope tornSession0 ("sendToClient") (GuardArg.strArg ("ping"))
        = Except.ok ([] : List SessionCall)
    ∧ closeHandler tornSession0
        = Except.error (JsError.typeError ("cannot read property disconnect of undefined")) := by
  refine ⟨⟨rfl, rfl⟩, ?_, ?_⟩
  · exact (guard_delegated_calls_noop tornSession0 ("sendToClient")
      (GuardArg.strArg ("ping")) ⟨rfl, rfl⟩).1
  · exact (guard_delegated_calls_noop tornSession0 ("sendToClient")
      (GuardArg.strArg ("ping")) ⟨rfl, rfl⟩).2

/-- Counterexample for claim C5: a single iq roster stanza with two item
entries makes the stanza handler deliver two canonical messages, so one
backend event can produce more than one outbound message. -/
theorem roster_stanza_two_messages :
    (stanzaHandler ("xmpp://alice@example.com") rosterTwoStanza).failure = none
    ∧ 1 < ((stanzaHandler ("xmpp://alice@example.com") rosterTwoStanza).sent).length :=
  ⟨rfl, by decide⟩

/-- Claim C5 (amended): every IRC backend event yields at most one canonical
message; every XMPP error-typed stanza yields exactly one; but an XMPP roster
query iq yields one message per roster entry, so a single backend event can
deliver more than one message. -/
theorem classify_at_most_one_except_roster :
    (∀ (ev : IrcEvent) (msgs : List IrcMessage),
        classifyIrc ev = Except.ok msgs → msgs.length ≤ 1)
    ∧ (∀ (a : String) (st : XmlElem), st.attrs.typeA = some ("error") →
        ((stanzaHandler a st).sent).length = 1 ∧ (stanzaHandler a st).failure = none)
    ∧ (∃ (a : String) (st : XmlElem), 1 < ((stanzaHandler a st).sent).length) := by
  refine ⟨?_, ?_, ?_⟩
  · intro ev msgs h
    rw [classify_eq_firstMatch] at h
    exact firstMatch_len codeOrder ev msgs h
  · intro a st h
    rw [errorStanzaMessage a st h]
    exact ⟨rfl, rfl⟩
  · exact ⟨("xmpp://alice@example.com"), rosterTwoStanza, by decide⟩

/-- Witness for C5 (amended) at concrete inputs: a dropped IRC event and a
concrete error stanza. -/
theorem classify_count_witness :
    (([] : List IrcMessage).length ≤ 1)
    ∧ ((stanzaHandler ("xmpp://alice@example.com") joinErrStanza).sent).length = 1
    ∧ (stanzaHandler ("xmpp://alice@example.com") joinErrStanza).failure = none := by
  refine ⟨?_, ?_⟩
  · exact classify_at_most_one_except_roster.1 ev6 [] rfl
  · exact classify_at_most_one_except_roster.2.1 ("xmpp://alice@example.com") joinErrStanza rfl

/-- Counterexample for claim C6: an event that is both motd-shaped and
quit-shaped.  Under the precedence order claimed by the spec (quit and part
before motd and mode) it would be classified as a leave message; the code
drops it, because the code tests motd first. -/
theorem spec_order_differs_from_code_order :
    classifyIrc ev6 = Except.ok []
    ∧ firstMatch specOrder ev6 = Except.ok [quitMsg ev6]
    ∧ (Except.ok [quitMsg ev6] : Except JsError (List IrcMessage))
        ≠ (Except.ok ([] : List IrcMessage)) := by
  refine ⟨rfl, rfl, ?_⟩
  intro h
  simp at h

/-- Claim C6 (amended): the classifier evaluates the structural shapes by
first-match in the fixed order roster snapshot, who list, topic change,
identity rename, join, direct/room message, motd, mode change, disconnect or
quit, part, then silent drop — that is, the known-ignorable motd and mode
shapes are tested before the disconnect/quit and part shapes, not after
them. -/
theorem classify_follows_code_order (o : IrcEvent) :
    classifyIrc o = firstMatch codeOrder o :=
  classify_eq_firstMatch o

/-- Claim C7: the claim says classification is total and never throws for any
field combination.  The code violates this twice, evaluated here at the
failing inputs: an IRC event carrying only a string channel makes the join
test dereference the absent `raw` (TypeError), and an XMPP roster entry with
subscription both makes the handler evaluate the unbound variable `state`
(ReferenceError). -/
theorem classifier_crash_on_malformed_event :
    classifyIrc ev7 = Except.error rawIndexOfError
    ∧ (stanzaHandler ("xmpp://alice@example.com") rosterBothStanza).failure
        = some (JsError.referenceError ("state is not defined")) :=
  ⟨rfl, rfl⟩

/-- Counterexample for claim C8: for the rename of alice to alice2 (the
scenario of the spec), the credential store write uses the bare target
display name alice2 as its key while the connection-pool move uses
alice2@irc.example.com — the credentials are not persisted under the new
identity key the pool entry is moved to. -/
theorem update_persist_key_differs_from_move_key :
    (((updateThen client0 job0 initState).1).setConfigCalls).map (fun t => t.2.1) = ["alice2"]
    ∧ (((updateThen client0 job0 initState).1).moveCalls).map (fun t => t.2.2.1)
        = ["alice2@irc.example.com"]
    ∧ ("alice2" : String) ≠ "alice2@irc.example.com" :=
  ⟨rfl, rfl, by decide⟩

/-- Claim C8 (amended): an address update issues the backend NICK command,
persists credentials carrying the new nick under the bare target display name
as credential-store key — a key that always differs from the
displayName@server key handed to the pool move — and calls move from the
pooled client key to displayName@server with the new credentials; an update
with an unrecognized objectType completes with success and issues no backend
command. -/
theorem update_address_effects (c : Client) (job : Job) (s : JsState) :
    (job.objectType = "address" →
      ∃ newCreds : Creds,
        updateThen c job s
          = ({ s with
               commands := s.commands ++ [RawCmd.nickCmd job.targetDisplayName],
               setConfigCalls := s.setConfigCalls
                 ++ [(("credentials" : String), job.targetDisplayName, newCreds)],
               moveCalls := s.moveCalls
                 ++ [(c.key, c.credentials,
                      job.targetDisplayName ++ ("@") ++ c.credentials.server, newCreds)],
               callback := s.callback ++ [Option.none] }, Except.ok ())
        ∧ newCreds.nick = job.targetDisplayName
        ∧ newCreds.server = c.credentials.server
        ∧ job.targetDisplayName ≠ job.targetDisplayName ++ ("@") ++ c.credentials.server)
    ∧ (job.objectType ≠ "address" → job.objectType ≠ "topic" →
        updateThen c job s
          = ({ s with callback := s.callback ++ [Option.none] }, Except.ok ())) := by
  constructor
  · intro h
    refine ⟨{ c.credentials with
        nick := job.targetDisplayName,
        actorDisplayName := job.targetDisplayName,
        actorName := jsOr3 job.targetDisplayName c.credentials.actorName }, ?_, rfl, rfl,
      ne_append_at job.targetDisplayName c.credentials.server⟩
    unfold updateThen
    simp [h]
  · intro h1 h2
    unfold updateThen
    simp [h1, h2]

/-- Witness for C8 (amended) at the concrete rename scenario. -/
theorem update_address_witness :
    ∃ newCreds : Creds,
      updateThen client0 job0 initState
        = ({ initState with
             commands := initState.commands ++ [RawCmd.nickCmd job0.targetDisplayName],
             setConfigCalls := initState.setConfigCalls
               ++ [(("credentials" : String), job0.targetDisplayName, newCreds)],
             moveCalls := initState.moveCalls
               ++ [(client0.key, client0.credentials,
                    job0.targetDisplayName ++ ("@") ++ client0.credentials.server, newCreds)],
             callback := initState.callback ++ [Option.none] }, Except.ok ())
      ∧ newCreds.nick = job0.targetDisplayName
      ∧ newCreds.server = client0.credentials.server
      ∧ job0.targetDisplayName
          ≠ job0.targetDisplayName ++ ("@") ++ client0.credentials.server :=
  (update_address_effects client0 job0 initState).1 rfl

/-- Claim C9: every error-typed stanza produces exactly one canonical error
message, whose type is join when the error element carries a
remote-server-not-found sub-reason, otherwise update when the stanza is a
presence notification, otherwise message; the message always carries the
error text as its content. -/
theorem error_stanza_single_message_type (a : String) (st : XmlElem)
    (h : st.attrs.typeA = some ("error")) :
    ∃ m : XmppMessage,
      stanzaHandler a st = { sent := [m], failure := none }
      ∧ m.atType = (if hasRsnf st then "join"
          else if st.isA ("presence") then "update" else "message")
      ∧ m.content = some (errTextOf st) := by
  exact ⟨errMsgOf st, errorStanzaMessage a st h, rfl, rfl⟩

/-- Witness for C9 at a concrete presence stanza whose error element carries
remote-server-not-found. -/
theorem error_stanza_witness :
    ∃ m : XmppMessage,
      stanzaHandler ("xmpp://alice@example.com") joinErrStanza = { sent := [m], failure := none }
      ∧ m.atType = (if hasRsnf joinErrStanza then "join"
          else if joinErrStanza.isA ("presence") then "update" else "message")
      ∧ m.content = some (errTextOf joinErrStanza) :=
  error_stanza_single_message_type ("xmpp://alice@example.com") joinErrStanza rfl

/-- Claim C10: the membership state `_channels` is empty in every reachable
state — no sequence of verb operations ever inserts an element, because the
only inserting routine `_joined` dies on the unbound variable `job` before
its push (and the join handler dies even earlier on the unbound `err`) — and
with an empty membership state the `_isJoined` check succeeds exactly for the
targets that do not start with a hash. -/
theorem channels_always_empty :
    (∀ ops : List Op, (runOps ops initState).channels = [])
    ∧ (∀ (ch : String) (s : JsState),
        joinedThen ch s = (s, Except.error (JsError.referenceError ("job is not defined"))))
    ∧ (∀ c : String, isJoined ([] : List String) c = !(startsWithHash c)) := by
  refine ⟨?_, ?_, ?_⟩
  · intro ops
    rw [runOps_channels ops initState]
    rfl
  · intro ch s
    rfl
  · intro c
    unfold isJoined
    by_cases h : startsWithHash c <;> simp [h]
